import Mathlib

/-!
Shallow embedding of the track-resolution and download pipeline of
src/script.py (spotitube).  Pure control flow is translated directly;
the external services (Zotify, yt-dlp download, yt-dlp search, the
filesystem) are modelled as oracles stored in a `World` record, each
returning `Except` so that backend exceptions are represented.  The
try/except blocks of the source are embedded as matches on those
`Except` values at exactly the places the source catches.
-/

/-- A track record as built by the catalog-listing functions of
src/script.py (lines 260-263, 286-289, 328-331, 371-373, 414-416).
Keys that a record may lack (`uri`, `videoId`, `source`, `collection`,
`album`) are `Option`; `name` and `artist` are always present. -/
structure Song where
  name : String
  artist : String
  album : Option String := none
  uri : Option String := none
  videoId : Option String := none
  source : Option String := none
  collection : Option String := none
deriving DecidableEq, Repr

/-- Python truthiness of `song.get(key)` for a string-valued key:
absent or empty string is falsy. -/
def truthy : Option String → Bool
  | some s => s != ""
  | none => false

/-- The deduplication identifier `f"{song['name']}|{song['artist']}"`
of src/script.py line 569. -/
def ident (s : Song) : String := s.name ++ "|" ++ s.artist

/-- The `(name, artist)` pair of a record, the dedup key as the spec
words it (spec section 3, DedupKey). -/
def pairKey (s : Song) : String × String := (s.name, s.artist)

/-- The duplicate-removal loop of `main`, src/script.py lines 566-572:
walk the input, keep a record when its identifier has not been seen,
remember the identifier. The Python `set` is modelled as a list with
membership. -/
def dedupeAux (seen : List String) : List Song → List Song
  | [] => []
  | s :: rest =>
    if ident s ∈ seen then dedupeAux seen rest
    else s :: dedupeAux (ident s :: seen) rest

/-- `unique_songs` computed by `main` (src/script.py lines 566-572). -/
def dedupe (songs : List Song) : List Song := dedupeAux [] songs

/-- First-seen order of distinct keys of a list, the reference notion
used by the spec to describe dedup output order (spec section 8). -/
def distinctFirstSeenAux {α : Type} [DecidableEq α] (seen : List α) : List α → List α
  | [] => []
  | a :: rest =>
    if a ∈ seen then distinctFirstSeenAux seen rest
    else a :: distinctFirstSeenAux (a :: seen) rest

/-- First-seen order of the distinct keys of a list. -/
def distinctFirstSeen {α : Type} [DecidableEq α] (xs : List α) : List α :=
  distinctFirstSeenAux [] xs

/-- Python `str.strip()` on a list of characters: drop leading and
trailing whitespace. -/
def pyStrip (l : List Char) : List Char :=
  ((l.dropWhile Char.isWhitespace).reverse.dropWhile Char.isWhitespace).reverse

/-- The sanitization pattern of src/script.py lines 161-162 and 450:
keep a character when `c.isalnum()` holds or it is a space, hyphen or
underscore, then strip.  Python's unicode-aware `str.isalnum` is passed
in as the predicate `alnum`. This is a total function: it raises on no
input and yields `""` when nothing survives the filter. -/
def sanitizeStr (alnum : Char → Bool) (s : String) : String :=
  String.mk (pyStrip (s.toList.filter fun c => alnum c || c == ' ' || c == '-' || c == '_'))

-- ### The external world: oracles for the backends of src/script.py

/-- One invocation of an external backend by the pipeline.  Used to
state which steps a run of `process_song` actually performed. -/
inductive Call where
  | zotify (uri : Option String)
  | ytdl (url : String)
  | search (query : String)
deriving DecidableEq, Repr

/-- Configuration and behaviour of everything external to
src/script.py: module-level settings (lines 21-41), the filesystem, and
the three network backends.  Each backend returns `Except` so that an
exception raised inside it is representable; `Zotify.login` or config
failures inside the try of `download_with_zotify` are folded into the
`zotifyTrack` error case. -/
structure World where
  /-- the global set by `check_zotify` (src/script.py line 41, 43-57) -/
  zotify_available : Bool
  /-- DOWNLOAD_FOLDER (line 21) -/
  DOWNLOAD_FOLDER : String
  /-- AUDIO_FORMAT (line 22) -/
  AUDIO_FORMAT : String
  /-- Python unicode `str.isalnum` -/
  isalnum : Char → Bool
  /-- `os.path.exists` (line 145) -/
  fileExists : String → Bool
  /-- `Zotify.download_track` (line 144): may raise, or return an
  optional filename -/
  zotifyTrack : Option String → Except String (Option String)
  /-- `ydl.download([url])` under the configured options (line 208):
  may raise, or complete -/
  ytdl : String → Except String Unit
  /-- `ydl.extract_info` for a ytsearch1 query (line 218): may raise,
  or return the optional first entry as (title, video id) -/
  search : String → Except String (Option (String × String))

/-- `download_with_zotify` (src/script.py lines 130-149): return `None`
when Zotify is unavailable; otherwise attempt the track download inside
a try that converts any exception to `None`; a returned filename counts
only when truthy and existing on disk.  The second component records
whether the Zotify backend was invoked. -/
def download_with_zotify (w : World) (track_uri : Option String) : Option String × List Call :=
  if w.zotify_available then
    match w.zotifyTrack track_uri with
    | Except.error _ => (none, [Call.zotify track_uri])
    | Except.ok none => (none, [Call.zotify track_uri])
    | Except.ok (some f) =>
      (if f != "" && w.fileExists f then some f else none, [Call.zotify track_uri])
  else (none, [])

/-- `download_youtube_audio` (src/script.py lines 151-211): build the
destination path and sanitized filename, run `ydl.download` inside a
try, and on success return the constructed output path (the source does
not re-check the file, line 209); on any exception return `None`
(lines 210-211).  The format-selection branches (165-191) only shape the
options handed to yt-dlp and are folded into the `ytdl` oracle. -/
def download_youtube_audio (w : World) (url track_name artist_name : String)
    (subfolder : String) : Option String × List Call :=
  let download_path :=
    if subfolder != "" then w.DOWNLOAD_FOLDER ++ "/" ++ subfolder else w.DOWNLOAD_FOLDER
  let safe_filename := sanitizeStr w.isalnum (artist_name ++ " - " ++ track_name)
  match w.ytdl url with
  | Except.error _ => (none, [Call.ytdl url])
  | Except.ok _ =>
    (some (download_path ++ "/" ++ safe_filename ++ "." ++ w.AUDIO_FORMAT), [Call.ytdl url])

/-- The record returned by `search_youtube_for_song` when a match is
found (src/script.py lines 221-225).  A `download_path` key holding
`None` and an absent key are both falsy at line 475 and are both
modelled as `none`. -/
structure VideoInfo where
  title : String
  url : String
  id : String
  download_path : Option String := none
deriving DecidableEq, Repr

/-- `search_youtube_for_song` (src/script.py lines 213-229): query
ytsearch1 inside a try that converts any exception to `None`; when an
entry comes back, build the video record and, if downloading, attach
the result of `download_youtube_audio`. -/
def search_youtube_for_song (w : World) (track_name artist_name : String)
    (download : Bool) (subfolder : String) : Option VideoInfo × List Call :=
  let query := track_name ++ " " ++ artist_name
  match w.search query with
  | Except.error _ => (none, [Call.search query])
  | Except.ok none => (none, [Call.search query])
  | Except.ok (some (title, vid)) =>
    let url := "https://www.youtube.com/watch?v=" ++ vid
    if download then
      let dl := download_youtube_audio w url track_name artist_name subfolder
      (some { title := title, url := url, id := vid, download_path := dl.1 },
        Call.search query :: dl.2)
    else
      (some { title := title, url := url, id := vid, download_path := none },
        [Call.search query])

/-- The per-track `result` dictionary built by `process_song`
(src/script.py lines 448, 455-456, 461, 465, 473). `spotify_direct`
models presence of the key set at line 455. -/
structure ResultRec where
  spotify : Song
  youtube : Option VideoInfo := none
  spotify_direct : Bool := false
  download_path : Option String := none
deriving DecidableEq, Repr

/-- The `(success, result, message)` triple returned by `process_song`. -/
structure Outcome where
  success : Bool
  result : ResultRec
  message : String
deriving DecidableEq, Repr

/-- The `[{index}/{total}] ` log message lead-in of `process_song`. -/
def msgLead (index total : Nat) : String :=
  "[" ++ toString index ++ "/" ++ toString total ++ "] "

/-- The sanitized collection subfolder computed at src/script.py
line 450 for a song. -/
def safeSubfolder (w : World) (song : Song) : String :=
  sanitizeStr w.isalnum (song.collection.getD "Unknown")

/-- The body of `process_song` (src/script.py lines 447-482) up to its
outer `try`: the direct Zotify step (452-457), the direct videoId step
(459-470), and the search step (472-480).  Every inner backend fault is
already absorbed by the called functions, so every branch produces
`Except.ok`; the return type records where the outer `except` of
lines 481-482 would observe an escaping exception.  The second
component of the payload is the trace of backend invocations. -/
def process_song_try (w : World) (song : Song) (download : Bool) (index total : Nat) :
    Except String (Outcome × List Call) :=
  let result0 : ResultRec := { spotify := song }
  let safe_subfolder := safeSubfolder w song
  let zstep :=
    if song.source == some "spotify" && download && w.zotify_available then
      download_with_zotify w song.uri
    else (none, [])
  match zstep.1 with
  | some p =>
    let out : Outcome :=
      { success := true
        result := { result0 with spotify_direct := true, download_path := some p }
        message := msgLead index total ++ "✓ Spotify: " ++ song.name ++ " - " ++ song.artist }
    Except.ok (out, zstep.2)
  | none =>
    if song.source == some "ytmusic" && truthy song.videoId then
      let vid := song.videoId.getD ""
      let video_url := "https://www.youtube.com/watch?v=" ++ vid
      let yinfo : VideoInfo := { title := song.name, url := video_url, id := vid }
      if download then
        let dstep := download_youtube_audio w video_url song.name song.artist safe_subfolder
        match dstep.1 with
        | some p =>
          let out : Outcome :=
            { success := true
              result := { result0 with youtube := some { yinfo with download_path := some p } }
              message := msgLead index total ++ "✓ YouTube: " ++ song.name ++ " - " ++ song.artist }
          Except.ok (out, zstep.2 ++ dstep.2)
        | none =>
          let out : Outcome :=
            { success := false
              result := { result0 with youtube := some yinfo }
              message := msgLead index total ++ "✗ Failed: " ++ song.name }
          Except.ok (out, zstep.2 ++ dstep.2)
      else
        let out : Outcome :=
          { success := true
            result := { result0 with youtube := some yinfo }
            message := msgLead index total ++ "✓ Found: " ++ song.name }
        Except.ok (out, zstep.2)
    else
      let sstep := search_youtube_for_song w song.name song.artist download safe_subfolder
      let result2 := { result0 with youtube := sstep.1 }
      match sstep.1 with
      | some vi =>
        if download && vi.download_path.isSome then
          let out : Outcome :=
            { success := true, result := result2
              message := msgLead index total ++ "✓ YouTube: " ++ song.name ++ " - " ++ song.artist }
          Except.ok (out, zstep.2 ++ sstep.2)
        else
          let out : Outcome :=
            { success := true, result := result2
              message := msgLead index total ++ "✓ Found: " ++ song.name }
          Except.ok (out, zstep.2 ++ sstep.2)
      | none =>
        let out : Outcome :=
          { success := false, result := result2
            message := msgLead index total ++ "✗ Not found: " ++ song.name }
        Except.ok (out, zstep.2 ++ sstep.2)

/-- `process_song` (src/script.py lines 447-482) with the outer
try/except of lines 451 and 481-482 made explicit: an exception that
escaped the body would be converted into a failed outcome. -/
def process_song (w : World) (song : Song) (download : Bool) (index total : Nat) :
    Outcome × List Call :=
  match process_song_try w song download index total with
  | Except.ok r => r
  | Except.error _ =>
    let out : Outcome :=
      { success := false, result := { spotify := song }
        message := msgLead index total ++ "✗ Error: " ++ song.name }
    (out, [])

/-- Does a trace contain a search-step invocation? -/
def hasSearchCall (calls : List Call) : Bool :=
  calls.any fun c => match c with
    | Call.search _ => true
    | _ => false

/-- Does a trace contain a Zotify direct-step invocation? -/
def hasZotifyCall (calls : List Call) : Bool :=
  calls.any fun c => match c with
    | Call.zotify _ => true
    | _ => false

-- ### check_zotify and the worker-pool run of main

/-- Environment consulted by `check_zotify` (src/script.py lines 34-36
and 43-57): whether librespot/zotify import, and the three settings. -/
structure ZotifyEnv where
  imports_ok : Bool
  use_zotify : Bool
  username : String
  password : String

/-- `check_zotify` (src/script.py lines 43-57): `zotify_available`
becomes true exactly when the imports succeed, `USE_ZOTIFY` is set and
both credentials are non-empty; in every other case the function falls
through to `return False`. -/
def check_zotify (env : ZotifyEnv) : Bool :=
  if env.imports_ok then
    if env.use_zotify && (env.username != "") && (env.password != "") then true
    else false
  else false

/-- `enumerate(unique_songs, 1)` of src/script.py line 588. -/
def withIndicesFrom (n : Nat) : List Song → List (Nat × Song)
  | [] => []
  | s :: rest => (n, s) :: withIndicesFrom (n + 1) rest

/-- The aggregation loop of `main` (src/script.py lines 586-594) with
error propagation explicit: `future.result()` re-raises an exception
that escaped a task, which `mapM` models by stopping the whole
aggregation at the first `Except.error`.  `order` is the completion
order of the submitted `(index, song)` tasks. -/
def runAllE (w : World) (order : List (Nat × Song)) (total : Nat) (download : Bool) :
    Except String (List Outcome) :=
  match order with
  | [] => Except.ok []
  | p :: rest =>
    match process_song_try w p.2 download p.1 total with
    | Except.error e => Except.error e
    | Except.ok r =>
      match runAllE w rest total download with
      | Except.error e => Except.error e
      | Except.ok outs => Except.ok (r.1 :: outs)

/-- The outcomes collected by the aggregation loop of `main`
(src/script.py lines 589-594), one per completed task. -/
def runAll (w : World) (order : List (Nat × Song)) (total : Nat) (download : Bool) :
    List Outcome :=
  order.map fun p => (process_song w p.2 download p.1 total).1

/-- The `successful` counter of `main` (lines 583, 593-594). -/
def successfulCount (outs : List Outcome) : Nat :=
  outs.countP fun o => o.success

/-- The `results` list persisted to results.json (lines 592, 596-597). -/
def report (outs : List Outcome) : List ResultRec :=
  outs.map fun o => o.result

-- ### Bounded worker pool model

/-- State of the bounded worker pool: tasks not yet started, tasks
currently in flight, tasks completed. -/
structure PoolState where
  queue : List Song
  running : List Song
  done : List Song
deriving DecidableEq, Repr

/-- Modelled from the spec: the bounded-concurrency semantics of the
WorkerPool.  src/script.py line 586 delegates scheduling to
`ThreadPoolExecutor(max_workers=MAX_CONCURRENT_DOWNLOADS)`, whose
scheduler is library code not under src/; the spec states the contract
"at most MAX_CONCURRENT resolution/download tasks run concurrently; the
bound is strict - excess tasks wait for a slot".  A pending task may
start only while fewer than `k` tasks are running; any running task may
finish. -/
inductive PoolStep (k : Nat) : PoolState → PoolState → Prop
  | start (s : Song) (rest running done : List Song) :
      running.length < k →
      PoolStep k ⟨s :: rest, running, done⟩ ⟨rest, s :: running, done⟩
  | finish (queue l₁ : List Song) (s : Song) (l₂ done : List Song) :
      PoolStep k ⟨queue, l₁ ++ s :: l₂, done⟩ ⟨queue, l₁ ++ l₂, s :: done⟩

/-- Initial pool state: everything submitted, nothing started
(src/script.py lines 587-588 submit every deduplicated song). -/
def initPool (tasks : List Song) : PoolState := ⟨tasks, [], []⟩

/-- Reachability of pool states by any interleaving of steps. -/
def PoolReach (k : Nat) : PoolState → PoolState → Prop :=
  Relation.ReflTransGen (PoolStep k)

-- ### Worlds and songs used as concrete evaluation inputs

/-- A world whose Zotify backend is configured and succeeds. -/
def exWorldZ : World :=
  { zotify_available := true, DOWNLOAD_FOLDER := "downloaded_songs", AUDIO_FORMAT := "opus"
    isalnum := Char.isAlphanum, fileExists := fun _ => true
    zotifyTrack := fun _ => Except.ok (some "f.ogg")
    ytdl := fun _ => Except.ok ()
    search := fun _ => Except.ok none }

/-- A world without Zotify where the search backend finds video "abc"
but every download attempt raises inside yt-dlp. -/
def exWorldFailDl : World :=
  { zotify_available := false, DOWNLOAD_FOLDER := "downloaded_songs", AUDIO_FORMAT := "opus"
    isalnum := Char.isAlphanum, fileExists := fun _ => true
    zotifyTrack := fun _ => Except.ok none
    ytdl := fun _ => Except.error "download error"
    search := fun _ => Except.ok (some ("Title", "abc")) }

/-- A world in which every backend raises. -/
def exWorldRaise : World :=
  { zotify_available := true, DOWNLOAD_FOLDER := "downloaded_songs", AUDIO_FORMAT := "opus"
    isalnum := Char.isAlphanum, fileExists := fun _ => true
    zotifyTrack := fun _ => Except.error "zotify error"
    ytdl := fun _ => Except.error "download error"
    search := fun _ => Except.error "search error" }

/-- A Spotify-sourced track with a direct uri locator. -/
def exSongSpot : Song :=
  { name := "N", artist := "A", uri := some "spotify:track:1", source := some "spotify"
    collection := some "C" }

/-- A ytmusic-sourced track with a direct videoId locator. -/
def exSongVid : Song :=
  { name := "N", artist := "A", videoId := some "vid123", source := some "ytmusic" }

/-- First record of the dedup-key collision pair: name contains the
separator character of the identifier string of line 569. -/
def exSongPipeA : Song := { name := "a|b", artist := "c" }

/-- Second record of the dedup-key collision pair: a different
(name, artist) pair with the same identifier string "a|b|c". -/
def exSongPipeB : Song := { name := "a", artist := "b|c" }

/-- Every backend of a world raises on every input (the fault-injection
premise of the failure-isolation claim). -/
def backendsAllRaise (w : World) : Prop :=
  (∀ u, ∃ e, w.zotifyTrack u = Except.error e) ∧
  (∀ u, ∃ e, w.ytdl u = Except.error e) ∧
  (∀ q, ∃ e, w.search q = Except.error e)

/-- A Zotify environment with imports available and full credentials. -/
def exEnv : ZotifyEnv :=
  { imports_ok := true, use_zotify := true, username := "user", password := "pass" }

-- ### Helper lemmas on dedup

theorem dedupeAux_length_le (seen : List String) (xs : List Song) :
    (dedupeAux seen xs).length ≤ xs.length := by
  induction xs generalizing seen with
  | nil => simp [dedupeAux]
  | cons s rest ih =>
    simp only [dedupeAux]
    split
    · exact Nat.le_succ_of_le (ih seen)
    · simpa using Nat.succ_le_succ (ih (ident s :: seen))

theorem ident_notMem_of_mem_dedupeAux (seen : List String) (xs : List Song) (y : Song)
    (hy : y ∈ dedupeAux seen xs) : ident y ∉ seen := by
  induction xs generalizing seen with
  | nil => simp [dedupeAux] at hy
  | cons s rest ih =>
    simp only [dedupeAux] at hy
    split at hy
    · exact ih seen hy
    · rcases List.mem_cons.mp hy with h | h
      · subst h; assumption
      · intro hmem
        exact ih (ident s :: seen) h (List.mem_cons_of_mem _ hmem)

theorem dedupeAux_idents_nodup (seen : List String) (xs : List Song) :
    ((dedupeAux seen xs).map ident).Nodup := by
  induction xs generalizing seen with
  | nil => simp [dedupeAux]
  | cons s rest ih =>
    simp only [dedupeAux]
    split
    · exact ih seen
    · simp only [List.map_cons, List.nodup_cons]
      refine ⟨?_, ih (ident s :: seen)⟩
      intro hmem
      rcases List.mem_map.mp hmem with ⟨y, hy, hid⟩
      exact ident_notMem_of_mem_dedupeAux _ _ _ hy (by simp [hid])

/-- The identifiers of the deduplicated list are pairwise distinct. -/
theorem dedupe_idents_nodup (xs : List Song) : ((dedupe xs).map ident).Nodup :=
  dedupeAux_idents_nodup [] xs

theorem dedupeAux_of_fresh (xs : List Song) :
    ∀ seen : List String, ((xs.map ident).Nodup) →
      (∀ y ∈ xs, ident y ∉ seen) → dedupeAux seen xs = xs := by
  induction xs with
  | nil => intro seen _ _; rfl
  | cons s rest ih =>
    intro seen hnd hfresh
    simp only [List.map_cons, List.nodup_cons] at hnd
    simp only [dedupeAux, if_neg (hfresh s (List.mem_cons_self _ _))]
    congr 1
    refine ih _ hnd.2 ?_
    intro y hy
    simp only [List.mem_cons, not_or]
    refine ⟨?_, hfresh y (List.mem_cons_of_mem _ hy)⟩
    intro hcontra
    exact hnd.1 (hcontra ▸ List.mem_map_of_mem ident hy)

theorem dedupe_idempotent (xs : List Song) : dedupe (dedupe xs) = dedupe xs :=
  dedupeAux_of_fresh _ [] (dedupe_idents_nodup xs) (by intro y _; simp)

theorem dedupeAux_map_ident (seen : List String) (xs : List Song) :
    (dedupeAux seen xs).map ident = distinctFirstSeenAux seen (xs.map ident) := by
  induction xs generalizing seen with
  | nil => rfl
  | cons s rest ih =>
    simp only [dedupeAux, List.map_cons, distinctFirstSeenAux]
    split
    · exact ih seen
    · simp only [List.map_cons]
      rw [ih (ident s :: seen)]

-- ### Helper lemmas on sanitization

theorem mem_of_mem_pyStrip {a : Char} {l : List Char} (h : a ∈ pyStrip l) : a ∈ l := by
  unfold pyStrip at h
  rw [List.mem_reverse] at h
  have h2 := (List.dropWhile_sublist _).subset h
  rw [List.mem_reverse] at h2
  exact (List.dropWhile_sublist _).subset h2

-- ### Claim theorems

/-- C1 (counterexample): as stated, the claim fails.  The code keys
deduplication on the single string `name + "|" + artist` (src/script.py
line 569), which identifies the two distinct `(name, artist)` pairs
`("a|b", "c")` and `("a", "b|c")`; so the output order does not equal
the first-seen order of the distinct `(name, artist)` keys of the
input, which lists both pairs. -/
theorem dedupe_pair_key_order_counterexample :
    (dedupe [exSongPipeA, exSongPipeB]).map pairKey ≠
      distinctFirstSeen ([exSongPipeA, exSongPipeB].map pairKey) := by
  decide

/-- C1 (amended): deduplication is idempotent, its output is no longer
than its input, and the output order equals the first-seen order of the
distinct `name + "|" + artist` identifier strings of the input; later
records with an already-seen identifier produce no output and no
failure. -/
theorem dedupe_idempotent_length_order (xs : List Song) :
    dedupe (dedupe xs) = dedupe xs ∧
    (dedupe xs).length ≤ xs.length ∧
    (dedupe xs).map ident = distinctFirstSeen (xs.map ident) :=
  ⟨dedupe_idempotent xs, dedupeAux_length_le [] xs, dedupeAux_map_ident [] xs⟩

/-- C7 (counterexample): two records whose `(name, artist)` pairs
differ are nevertheless collapsed to one by the dedup loop, because
their `name + "|" + artist` identifier strings coincide. -/
theorem dedupe_distinct_pairs_dropped_counterexample :
    pairKey exSongPipeA ≠ pairKey exSongPipeB ∧
    dedupe [exSongPipeA, exSongPipeB] = [exSongPipeA] := by
  decide

/-- C7 (amended): two records are treated as duplicates exactly when
their `name + "|" + artist` identifier strings are equal (which is
`(name, artist)` equality whenever the fields do not embed the `"|"`
separator); with distinct identifiers both records are kept. -/
theorem dedupe_pair_iff_ident_eq (r₁ r₂ : Song) :
    dedupe [r₁, r₂] = if ident r₂ = ident r₁ then [r₁] else [r₁, r₂] := by
  by_cases h : ident r₂ = ident r₁ <;>
    simp [dedupe, dedupeAux, h]

/-- C6: every character of `sanitize(s)` satisfies the alphanumeric
predicate or is a space, hyphen or underscore; `sanitize("") = ""`; and
on input with no surviving character the result degrades to the empty
string.  The function is a total Lean definition, so it raises on no
input. -/
theorem sanitize_character_set (alnum : Char → Bool) (s : String) :
    ((sanitizeStr alnum s).toList.all fun c =>
      alnum c || c == ' ' || c == '-' || c == '_') = true ∧
    sanitizeStr alnum "" = "" ∧
    ((s.toList.all fun c => !(alnum c || c == ' ' || c == '-' || c == '_')) = true →
      sanitizeStr alnum s = "") := by
  refine ⟨?_, rfl, ?_⟩
  · rw [List.all_eq_true]
    intro c hc
    have hc' : c ∈ pyStrip (s.toList.filter fun c =>
        alnum c || c == ' ' || c == '-' || c == '_') := hc
    exact (List.mem_filter.mp (mem_of_mem_pyStrip hc')).2
  · intro hall
    rw [List.all_eq_true] at hall
    have hfil : (s.toList.filter fun c =>
        alnum c || c == ' ' || c == '-' || c == '_') = [] := by
      rw [List.filter_eq_nil_iff]
      intro a ha
      have := hall a ha
      simpa using this
    simp only [sanitizeStr, hfil]
    rfl

/-- C6 witness: a concrete entirely-invalid input degrades to the empty
string. -/
theorem sanitize_character_set_witness :
    sanitizeStr Char.isAlphanum "??!" = "" :=
  (sanitize_character_set Char.isAlphanum "??!").2.2 (by decide)

-- ### Helper lemmas on process_song and its traces

theorem zotify_available_of_some {w : World} {u : Option String} {p : String}
    (h : (download_with_zotify w u).1 = some p) : w.zotify_available = true := by
  by_contra hav
  rw [Bool.not_eq_true] at hav
  simp [download_with_zotify, hav] at h

theorem download_with_zotify_no_search (w : World) (u : Option String) :
    hasSearchCall (download_with_zotify w u).2 = false := by
  unfold download_with_zotify
  repeat' split
  all_goals simp [hasSearchCall]

theorem download_youtube_audio_trace (w : World) (url track_name artist_name sf : String) :
    (download_youtube_audio w url track_name artist_name sf).2 = [Call.ytdl url] := by
  unfold download_youtube_audio
  repeat' split
  all_goals rfl

theorem search_youtube_trace_head (w : World) (track_name artist_name : String)
    (download : Bool) (sf : String) :
    hasSearchCall (search_youtube_for_song w track_name artist_name download sf).2 = true ∧
    hasZotifyCall (search_youtube_for_song w track_name artist_name download sf).2 = false := by
  unfold search_youtube_for_song
  rcases hs : w.search (track_name ++ " " ++ artist_name) with e | o
  · simp [hs, hasSearchCall, hasZotifyCall]
  · rcases o with _ | ⟨title, vid⟩
    · simp [hs, hasSearchCall, hasZotifyCall]
    · cases download <;>
        simp [hs, hasSearchCall, hasZotifyCall, download_youtube_audio_trace]

theorem process_song_try_ok (w : World) (song : Song) (download : Bool) (index total : Nat) :
    ∃ r, process_song_try w song download index total = Except.ok r := by
  unfold process_song_try
  dsimp only
  repeat' split
  all_goals exact ⟨_, rfl⟩

theorem process_song_try_eq (w : World) (song : Song) (download : Bool) (index total : Nat) :
    process_song_try w song download index total =
      Except.ok (process_song w song download index total) := by
  obtain ⟨r, hr⟩ := process_song_try_ok w song download index total
  simp [process_song, hr]

theorem hasSearchCall_append (a b : List Call) :
    hasSearchCall (a ++ b) = (hasSearchCall a || hasSearchCall b) := by
  simp [hasSearchCall, List.any_append]

theorem hasZotifyCall_append (a b : List Call) :
    hasZotifyCall (a ++ b) = (hasZotifyCall a || hasZotifyCall b) := by
  simp [hasZotifyCall, List.any_append]

theorem process_song_spotify_direct {w : World} {song : Song} {p : String} (i t : Nat)
    (hsrc : song.source = some "spotify")
    (hz : (download_with_zotify w song.uri).1 = some p) :
    (process_song w song true i t).1.success = true ∧
    (process_song w song true i t).2 = (download_with_zotify w song.uri).2 := by
  have hav := zotify_available_of_some hz
  unfold process_song process_song_try
  dsimp only
  simp [hsrc, hav, hz]

theorem process_song_ytmusic_direct {w : World} {song : Song} {p v : String} (i t : Nat)
    (hsrc : song.source = some "ytmusic") (hvid : song.videoId = some v) (hv : v ≠ "")
    (hdl : (download_youtube_audio w ("https://www.youtube.com/watch?v=" ++ v) song.name
      song.artist (safeSubfolder w song)).1 = some p) :
    (process_song w song true i t).1.success = true ∧
    (process_song w song true i t).2 =
      [Call.ytdl ("https://www.youtube.com/watch?v=" ++ v)] := by
  unfold process_song process_song_try
  dsimp only
  simp [hsrc, hvid, truthy, hv, hdl, download_youtube_audio_trace]

theorem process_song_spotify_searches {w : World} {song : Song} (download : Bool) (i t : Nat)
    (hsrc : song.source = some "spotify")
    (hz : (download_with_zotify w song.uri).1 = none ∨ download = false ∨
      w.zotify_available = false) :
    hasSearchCall (process_song w song download i t).2 = true := by
  have hsrch := search_youtube_trace_head w song.name song.artist download (safeSubfolder w song)
  unfold process_song process_song_try
  dsimp only
  by_cases hd : download = true
  · subst hd
    by_cases hav : w.zotify_available = true
    · have hznone : (download_with_zotify w song.uri).1 = none := by
        rcases hz with h | h | h
        · exact h
        · exact absurd h (by simp)
        · rw [hav] at h; exact absurd h (by simp)
      rcases hss : (search_youtube_for_song w song.name song.artist true
          (safeSubfolder w song)).1 with _ | vi
      · simp [hsrc, hav, hznone, hss, hasSearchCall_append, hsrch.1]
      · by_cases hdp : vi.download_path.isSome = true
        · simp [hsrc, hav, hznone, hss, hdp, hasSearchCall_append, hsrch.1]
        · simp [hsrc, hav, hznone, hss, hdp, hasSearchCall_append, hsrch.1]
    · rw [Bool.not_eq_true] at hav
      rcases hss : (search_youtube_for_song w song.name song.artist true
          (safeSubfolder w song)).1 with _ | vi
      · simp [hsrc, hav, hss, hasSearchCall_append, hsrch.1]
      · by_cases hdp : vi.download_path.isSome = true
        · simp [hsrc, hav, hss, hdp, hasSearchCall_append, hsrch.1]
        · simp [hsrc, hav, hss, hdp, hasSearchCall_append, hsrch.1]
  · rw [Bool.not_eq_true] at hd
    subst hd
    rcases hss : (search_youtube_for_song w song.name song.artist false
        (safeSubfolder w song)).1 with _ | vi
    · simp [hsrc, hss, hasSearchCall_append, hsrch.1]
    · simp [hsrc, hss, hasSearchCall_append, hsrch.1]

theorem safeSubfolder_noZotify (w : World) (song : Song) :
    safeSubfolder { w with zotify_available := false } song = safeSubfolder w song := rfl

theorem search_youtube_noZotify (w : World) (n a : String) (d : Bool) (sf : String) :
    search_youtube_for_song { w with zotify_available := false } n a d sf =
      search_youtube_for_song w n a d sf := rfl

theorem process_song_zotify_unavail_eq {w : World} {song : Song} (download : Bool) (i t : Nat)
    (hsrc : song.source = some "spotify")
    (hz : (download_with_zotify w song.uri).1 = none) :
    (process_song w song download i t).1 =
      (process_song { w with zotify_available := false } song download i t).1 := by
  unfold process_song process_song_try
  dsimp only
  by_cases hd : download = true
  · subst hd
    by_cases hav : w.zotify_available = true
    · rcases hss : (search_youtube_for_song w song.name song.artist true
          (safeSubfolder w song)).1 with _ | vi
      · simp [safeSubfolder_noZotify, search_youtube_noZotify, hsrc, hav, hz, hss]
      · by_cases hdp : vi.download_path.isSome = true
        · simp [safeSubfolder_noZotify, search_youtube_noZotify, hsrc, hav, hz, hss, hdp]
        · simp [safeSubfolder_noZotify, search_youtube_noZotify, hsrc, hav, hz, hss, hdp]
    · rw [Bool.not_eq_true] at hav
      rcases hss : (search_youtube_for_song w song.name song.artist true
          (safeSubfolder w song)).1 with _ | vi
      · simp [safeSubfolder_noZotify, search_youtube_noZotify, hsrc, hav, hss]
      · by_cases hdp : vi.download_path.isSome = true
        · simp [safeSubfolder_noZotify, search_youtube_noZotify, hsrc, hav, hss, hdp]
        · simp [safeSubfolder_noZotify, search_youtube_noZotify, hsrc, hav, hss, hdp]
  · rw [Bool.not_eq_true] at hd
    subst hd
    rcases hss : (search_youtube_for_song w song.name song.artist false
        (safeSubfolder w song)).1 with _ | vi
    · simp [safeSubfolder_noZotify, search_youtube_noZotify, hsrc, hss]
    · simp [safeSubfolder_noZotify, search_youtube_noZotify, hsrc, hss]

theorem process_song_no_zotify_trace {w : World} {song : Song} (download : Bool) (i t : Nat)
    (hc : (song.source == some "spotify" && download && w.zotify_available) = false) :
    hasZotifyCall (process_song w song download i t).2 = false := by
  have hsrch := search_youtube_trace_head w song.name song.artist download (safeSubfolder w song)
  unfold process_song process_song_try
  dsimp only
  simp only [hc, Bool.false_eq_true, if_false]
  by_cases hyt : (song.source == some "ytmusic" && truthy song.videoId) = true
  · by_cases hd : download = true
    · rcases hdl : (download_youtube_audio w
          ("https://www.youtube.com/watch?v=" ++ song.videoId.getD "") song.name song.artist
          (safeSubfolder w song)).1 with _ | p
      · simp [hyt, hd, hdl, hasZotifyCall, download_youtube_audio_trace]
      · simp [hyt, hd, hdl, hasZotifyCall, download_youtube_audio_trace]
    · rw [Bool.not_eq_true] at hd
      simp [hyt, hd, hasZotifyCall]
  · rw [Bool.not_eq_true] at hyt
    rcases hss : (search_youtube_for_song w song.name song.artist download
        (safeSubfolder w song)).1 with _ | vi
    · simp [hyt, hss, hsrch.2]
    · by_cases hdp : (download && vi.download_path.isSome) = true
      · simp [hyt, hss, hdp, hsrch.2]
      · simp [hyt, hss, hdp, hsrch.2]

theorem process_song_ytmusic_direct_fail {w : World} {song : Song} {v : String} (i t : Nat)
    (hsrc : song.source = some "ytmusic") (hvid : song.videoId = some v) (hv : v ≠ "")
    (hdl : (download_youtube_audio w ("https://www.youtube.com/watch?v=" ++ v) song.name
      song.artist (safeSubfolder w song)).1 = none) :
    (process_song w song true i t).1.success = false ∧
    (process_song w song true i t).2 =
      [Call.ytdl ("https://www.youtube.com/watch?v=" ++ v)] := by
  unfold process_song process_song_try
  dsimp only
  simp [hsrc, hvid, truthy, hv, hdl, download_youtube_audio_trace]

theorem process_song_spotify_search_none {w : World} {song : Song} (download : Bool) (i t : Nat)
    (hsrc : song.source = some "spotify")
    (hz : (download_with_zotify w song.uri).1 = none)
    (hsn : (search_youtube_for_song w song.name song.artist download
      (safeSubfolder w song)).1 = none) :
    (process_song w song download i t).1.success = false := by
  unfold process_song process_song_try
  dsimp only
  by_cases hd : download = true
  · subst hd
    by_cases hav : w.zotify_available = true
    · simp [hsrc, hav, hz, hsn]
    · rw [Bool.not_eq_true] at hav
      simp [hsrc, hav, hsn]
  · rw [Bool.not_eq_true] at hd
    subst hd
    simp [hsrc, hsn]

theorem check_zotify_eq_true {env : ZotifyEnv} (h : check_zotify env = true) :
    env.imports_ok = true ∧ env.use_zotify = true ∧
    env.username ≠ "" ∧ env.password ≠ "" := by
  unfold check_zotify at h
  split at h
  · split at h
    · rename_i hi hu
      rw [Bool.and_eq_true, Bool.and_eq_true] at hu
      exact ⟨hi, hu.1.1, by simpa using hu.1.2, by simpa using hu.2⟩
    · exact absurd h (by simp)
  · exact absurd h (by simp)

theorem runAllE_eq_ok (w : World) (order : List (Nat × Song)) (total : Nat) (download : Bool) :
    runAllE w order total download = Except.ok (runAll w order total download) := by
  induction order with
  | nil => rfl
  | cons p rest ih => simp [runAllE, runAll, process_song_try_eq, ih]

theorem withIndicesFrom_length (n : Nat) (l : List Song) :
    (withIndicesFrom n l).length = l.length := by
  induction l generalizing n with
  | nil => rfl
  | cons s rest ih => simp [withIndicesFrom, ih]

theorem poolStep_perm {k : Nat} {st st' : PoolState} (h : PoolStep k st st') :
    List.Perm (st'.queue ++ st'.running ++ st'.done) (st.queue ++ st.running ++ st.done) := by
  cases h with
  | start s rest running done hlt =>
    simp only [List.append_assoc, List.cons_append]
    exact List.perm_middle
  | finish queue l₁ s l₂ done =>
    simp only [List.append_assoc, List.cons_append]
    refine List.Perm.append_left _ (List.Perm.append_left _ ?_)
    exact List.perm_middle

theorem poolReach_invariant {k : Nat} {tasks : List Song} {st : PoolState}
    (h : PoolReach k (initPool tasks) st) :
    st.running.length ≤ k ∧
    List.Perm (st.queue ++ st.running ++ st.done) tasks := by
  induction h with
  | refl => exact ⟨Nat.zero_le k, by simp [initPool]⟩
  | tail hr hstep ih =>
    rcases ih with ⟨ih1, ih2⟩
    refine ⟨?_, (poolStep_perm hstep).trans ih2⟩
    cases hstep with
    | start s rest running done hlt => simpa using hlt
    | finish queue l₁ s l₂ done =>
      simp only [List.length_append, List.length_cons] at ih1 ⊢
      omega

/-- C2: for a track with a direct locator (a Spotify uri under the
Zotify backend, src/script.py lines 452-457, or a ytmusic videoId,
lines 459-466), if the direct backend produces a local file then the
outcome is a success and the search step is never invoked. -/
theorem direct_locator_success_skips_search (w : World) (song : Song) (i t : Nat) :
    (∀ p : String, song.source = some "spotify" →
      (download_with_zotify w song.uri).1 = some p →
      (process_song w song true i t).1.success = true ∧
      hasSearchCall (process_song w song true i t).2 = false) ∧
    (∀ v p : String, song.source = some "ytmusic" → song.videoId = some v → v ≠ "" →
      (download_youtube_audio w ("https://www.youtube.com/watch?v=" ++ v) song.name song.artist
        (safeSubfolder w song)).1 = some p →
      (process_song w song true i t).1.success = true ∧
      hasSearchCall (process_song w song true i t).2 = false) := by
  constructor
  · intro p hsrc hz
    obtain ⟨h1, h2⟩ := process_song_spotify_direct i t hsrc hz
    refine ⟨h1, ?_⟩
    rw [h2]
    exact download_with_zotify_no_search w song.uri
  · intro v p hsrc hvid hv hdl
    obtain ⟨h1, h2⟩ := process_song_ytmusic_direct i t hsrc hvid hv hdl
    refine ⟨h1, ?_⟩
    rw [h2]
    rfl

/-- C2 witness: concrete direct-locator successes on both backends,
with the search backend never called. -/
theorem direct_locator_success_skips_search_witness :
    ((process_song exWorldZ exSongSpot true 1 2).1.success = true ∧
      hasSearchCall (process_song exWorldZ exSongSpot true 1 2).2 = false) ∧
    ((process_song exWorldZ exSongVid true 2 2).1.success = true ∧
      hasSearchCall (process_song exWorldZ exSongVid true 2 2).2 = false) :=
  ⟨(direct_locator_success_skips_search exWorldZ exSongSpot 1 2).1 "f.ogg" rfl rfl,
   (direct_locator_success_skips_search exWorldZ exSongVid 2 2).2 "vid123"
     "downloaded_songs/Unknown/A - N.opus" rfl rfl (by decide) rfl⟩

/-- C3 (counterexample): as stated, the claim fails.  For a ytmusic
track with a direct videoId in download mode, a failed direct download
returns a failed outcome at src/script.py line 468 without ever
invoking the search step, instead of falling through. -/
theorem direct_failure_no_fallthrough_counterexample :
    truthy exSongVid.videoId = true ∧
    (download_youtube_audio exWorldFailDl "https://www.youtube.com/watch?v=vid123"
      exSongVid.name exSongVid.artist (safeSubfolder exWorldFailDl exSongVid)).1 = none ∧
    hasSearchCall (process_song exWorldFailDl exSongVid true 1 1).2 = false ∧
    (process_song exWorldFailDl exSongVid true 1 1).1.success = false :=
  ⟨rfl, rfl, rfl, rfl⟩

/-- C3 (amended): for a Spotify-source track, a direct Zotify step that
produces no file (backend failed, returned nothing, or unavailable)
falls through to the search step, and unavailability yields the same
outcome as a failed attempt; for a ytmusic track with a videoId in
download mode, a failed direct download instead terminates the track
with a failed outcome and the search step is not invoked
(src/script.py lines 467-468). -/
theorem direct_failure_fallthrough_amended :
    (∀ (w : World) (song : Song) (download : Bool) (i t : Nat),
      song.source = some "spotify" →
      (download_with_zotify w song.uri).1 = none →
      hasSearchCall (process_song w song download i t).2 = true ∧
      (process_song w song download i t).1 =
        (process_song { w with zotify_available := false } song download i t).1) ∧
    (∀ (w : World) (song : Song) (i t : Nat) (v : String),
      song.source = some "ytmusic" → song.videoId = some v → v ≠ "" →
      (download_youtube_audio w ("https://www.youtube.com/watch?v=" ++ v) song.name song.artist
        (safeSubfolder w song)).1 = none →
      (process_song w song true i t).1.success = false ∧
      hasSearchCall (process_song w song true i t).2 = false) := by
  constructor
  · intro w song download i t hsrc hz
    exact ⟨process_song_spotify_searches download i t hsrc (Or.inl hz),
      process_song_zotify_unavail_eq download i t hsrc hz⟩
  · intro w song i t v hsrc hvid hv hdl
    obtain ⟨h1, h2⟩ := process_song_ytmusic_direct_fail i t hsrc hvid hv hdl
    refine ⟨h1, ?_⟩
    rw [h2]
    rfl

/-- C3 (amended) witness: both amended behaviours at concrete inputs. -/
theorem direct_failure_fallthrough_amended_witness :
    (hasSearchCall (process_song exWorldFailDl exSongSpot true 1 2).2 = true ∧
      (process_song exWorldFailDl exSongSpot true 1 2).1 =
        (process_song { exWorldFailDl with zotify_available := false } exSongSpot true 1 2).1) ∧
    ((process_song exWorldFailDl exSongVid true 2 2).1.success = false ∧
      hasSearchCall (process_song exWorldFailDl exSongVid true 2 2).2 = false) :=
  ⟨direct_failure_fallthrough_amended.1 exWorldFailDl exSongSpot true 1 2 rfl rfl,
   direct_failure_fallthrough_amended.2 exWorldFailDl exSongVid 2 2 "vid123" rfl rfl
     (by decide) rfl⟩

/-- C8 (code evaluated at the failing input): a Spotify-source track in
download mode whose search step finds video "abc" but whose download
raises is recorded with success = true and message "Found", although
the yt-dlp backend was invoked and produced no file (src/script.py
lines 474-478: the else branch at 477-478 also captures the
download-mode case in which download_path is None). -/
theorem download_failed_counted_success_bug :
    (process_song exWorldFailDl exSongSpot true 1 1).1.success = true ∧
    (process_song exWorldFailDl exSongSpot true 1 1).1.result.youtube =
      some { title := "Title", url := "https://www.youtube.com/watch?v=abc", id := "abc",
             download_path := none } ∧
    (process_song exWorldFailDl exSongSpot true 1 1).2 =
      [Call.search "N A", Call.ytdl "https://www.youtube.com/watch?v=abc"] ∧
    (process_song exWorldFailDl exSongSpot true 1 1).1.message = "[1/1] ✓ Found: N" :=
  ⟨rfl, rfl, rfl, rfl⟩

/-- C10: the direct Spotify download path is attempted only when
download is requested and Zotify is available with credentials
(src/script.py lines 452, 43-57); in resolve-only mode a Spotify
track's uri is never consulted and resolution proceeds via the search
step. -/
theorem spotify_direct_gating (env : ZotifyEnv) (w : World) (song : Song) (download : Bool)
    (i t : Nat) (henv : w.zotify_available = check_zotify env)
    (hsrc : song.source = some "spotify") :
    (hasZotifyCall (process_song w song download i t).2 = true →
      download = true ∧ env.imports_ok = true ∧ env.use_zotify = true ∧
      env.username ≠ "" ∧ env.password ≠ "") ∧
    (download = false →
      hasZotifyCall (process_song w song download i t).2 = false ∧
      hasSearchCall (process_song w song download i t).2 = true) := by
  constructor
  · intro hzc
    by_cases hc : (song.source == some "spotify" && download && w.zotify_available) = true
    · rw [Bool.and_eq_true, Bool.and_eq_true] at hc
      have hck : check_zotify env = true := by rw [← henv]; exact hc.2
      obtain ⟨hi, hu, hn, hp⟩ := check_zotify_eq_true hck
      exact ⟨hc.1.2, hi, hu, hn, hp⟩
    · rw [Bool.not_eq_true] at hc
      rw [process_song_no_zotify_trace download i t hc] at hzc
      cases hzc
  · intro hd
    have hcfalse : (song.source == some "spotify" && download && w.zotify_available) = false := by
      rw [hd]
      simp
    exact ⟨process_song_no_zotify_trace download i t hcfalse,
      process_song_spotify_searches download i t hsrc (Or.inr (Or.inl hd))⟩

/-- C10 witness: with credentials configured, a resolve-only run of a
Spotify track consults no direct locator and does invoke search. -/
theorem spotify_direct_gating_witness :
    hasZotifyCall (process_song exWorldZ exSongSpot false 1 1).2 = false ∧
    hasSearchCall (process_song exWorldZ exSongSpot false 1 1).2 = true :=
  (spotify_direct_gating exEnv exWorldZ exSongSpot false 1 1 rfl rfl).2 rfl

/-- C4 (counterexample): as stated, the claim fails.  At this input
the yt-dlp download backend raises during the task: the exception is
caught below the task boundary (src/script.py lines 210-211) and does
not propagate - process_song_try returns an ordinary outcome - yet the
task's outcome has succeeded = true (lines 477-478), not the failed
outcome the claim promises for any caught backend exception. -/
theorem caught_backend_error_success_counterexample :
    (∃ e, exWorldFailDl.ytdl "https://www.youtube.com/watch?v=abc" = Except.error e) ∧
    (process_song exWorldFailDl exSongSpot true 1 1).2 =
      [Call.search "N A", Call.ytdl "https://www.youtube.com/watch?v=abc"] ∧
    process_song_try exWorldFailDl exSongSpot true 1 1 =
      Except.ok (process_song exWorldFailDl exSongSpot true 1 1) ∧
    (process_song exWorldFailDl exSongSpot true 1 1).1.success = true :=
  ⟨⟨"download error", rfl⟩, rfl, rfl, rfl⟩

/-- C4 (amended): every backend exception is caught below the task
boundary (src/script.py lines 147-149, 210-211, 227-228, 481-482) and
never propagates to the pool or the aggregator: the aggregation loop,
in which future.result() would re-raise an escaped task exception,
always receives one ordinary outcome per submitted task whatever the
backends do, so no task aborts another.  A caught exception does not
always produce a failed outcome - a non-final step falls through and
a search-step download failure is even counted a success - but when
every backend raises, a Spotify-source download task ends in a failed
outcome rather than an exception. -/
theorem task_errors_isolated :
    (∀ (w : World) (order : List (Nat × Song)) (total : Nat) (download : Bool),
      ∃ outs, runAllE w order total download = Except.ok outs ∧
        outs.length = order.length) ∧
    (∀ (w : World) (song : Song) (i t : Nat),
      song.source = some "spotify" → backendsAllRaise w →
      (process_song w song true i t).1.success = false) := by
  constructor
  · intro w order total download
    refine ⟨runAll w order total download, runAllE_eq_ok w order total download, ?_⟩
    simp [runAll]
  · intro w song i t hsrc hraise
    obtain ⟨hz, hy, hs⟩ := hraise
    obtain ⟨e₁, he₁⟩ := hz song.uri
    obtain ⟨e₂, he₂⟩ := hs (song.name ++ " " ++ song.artist)
    have hdwz : (download_with_zotify w song.uri).1 = none := by
      unfold download_with_zotify
      split
      · rw [he₁]
      · rfl
    have hsn : (search_youtube_for_song w song.name song.artist true
        (safeSubfolder w song)).1 = none := by
      unfold search_youtube_for_song
      dsimp only
      rw [he₂]
    exact process_song_spotify_search_none true i t hsrc hdwz hsn

/-- C4 (amended) witness: all backends raising on a single submitted
track. -/
theorem task_errors_isolated_witness :
    (∃ outs, runAllE exWorldRaise [(1, exSongSpot)] 1 true = Except.ok outs ∧
      outs.length = 1) ∧
    (process_song exWorldRaise exSongSpot true 1 1).1.success = false :=
  ⟨task_errors_isolated.1 exWorldRaise [(1, exSongSpot)] 1 true,
   task_errors_isolated.2 exWorldRaise exSongSpot 1 1 rfl
     ⟨fun _ => ⟨"zotify error", rfl⟩, fun _ => ⟨"download error", rfl⟩,
      fun _ => ⟨"search error", rfl⟩⟩⟩

/-- C5: at the end of a run over any completion order of the
deduplicated submissions, the collected outcome list has exactly one
entry per deduplicated track, the persisted report the same, and
succeeded plus failed (printed as total minus succeeded,
src/script.py lines 600-602) equals the total submitted. -/
theorem aggregate_consistency (w : World) (songs : List Song) (download : Bool)
    (order : List (Nat × Song)) (outs : List Outcome)
    (hperm : List.Perm order (withIndicesFrom 1 (dedupe songs)))
    (houts : outs = runAll w order (dedupe songs).length download) :
    outs.length = (dedupe songs).length ∧
    successfulCount outs + (outs.length - successfulCount outs) = outs.length ∧
    (report outs).length = (dedupe songs).length := by
  have hlen : outs.length = (dedupe songs).length := by
    rw [houts]
    simp only [runAll, List.length_map]
    rw [hperm.length_eq, withIndicesFrom_length]
  refine ⟨hlen, ?_, ?_⟩
  · exact Nat.add_sub_cancel' (List.countP_le_length _)
  · simp only [report, List.length_map]
    exact hlen

/-- C5 witness: a concrete single-track run in submission order. -/
theorem aggregate_consistency_witness :
    (runAll exWorldZ (withIndicesFrom 1 (dedupe [exSongSpot]))
        (dedupe [exSongSpot]).length true).length = (dedupe [exSongSpot]).length ∧
    successfulCount (runAll exWorldZ (withIndicesFrom 1 (dedupe [exSongSpot]))
        (dedupe [exSongSpot]).length true) +
      ((runAll exWorldZ (withIndicesFrom 1 (dedupe [exSongSpot]))
          (dedupe [exSongSpot]).length true).length -
        successfulCount (runAll exWorldZ (withIndicesFrom 1 (dedupe [exSongSpot]))
          (dedupe [exSongSpot]).length true)) =
      (runAll exWorldZ (withIndicesFrom 1 (dedupe [exSongSpot]))
        (dedupe [exSongSpot]).length true).length ∧
    (report (runAll exWorldZ (withIndicesFrom 1 (dedupe [exSongSpot]))
        (dedupe [exSongSpot]).length true)).length = (dedupe [exSongSpot]).length :=
  aggregate_consistency exWorldZ [exSongSpot] true
    (withIndicesFrom 1 (dedupe [exSongSpot])) _ (List.Perm.refl _) rfl

/-- C9: in the bounded pool model, for every positive bound k and every
state reachable from the full submission of the deduplicated tracks,
at most k tasks are running; the tasks in the state are exactly the
deduplicated submission (none lost, none duplicated); and the
deduplicated submission contains each dedup identifier exactly once,
so every deduplicated track is submitted exactly once
(src/script.py lines 586-588). -/
theorem pool_bound_and_unique_submission (k : Nat) (songs : List Song) (st : PoolState)
    (_hk : 0 < k) (hreach : PoolReach k (initPool (dedupe songs)) st) :
    st.running.length ≤ k ∧
    List.Perm (st.queue ++ st.running ++ st.done) (dedupe songs) ∧
    ((dedupe songs).map ident).Nodup := by
  obtain ⟨h1, h2⟩ := poolReach_invariant hreach
  exact ⟨h1, h2, dedupe_idents_nodup songs⟩

/-- C9 witness: the initial state of a one-track pool with bound 1. -/
theorem pool_bound_and_unique_submission_witness :
    (initPool (dedupe [exSongSpot])).running.length ≤ 1 ∧
    List.Perm ((initPool (dedupe [exSongSpot])).queue ++
      (initPool (dedupe [exSongSpot])).running ++ (initPool (dedupe [exSongSpot])).done)
      (dedupe [exSongSpot]) ∧
    ((dedupe [exSongSpot]).map ident).Nodup :=
  pool_bound_and_unique_submission 1 [exSongSpot] (initPool (dedupe [exSongSpot]))
    (by decide) Relation.ReflTransGen.refl
